import Mathlib

/-!
Verification of the keyword-based procurement-methodology recommender of the
`uvdemo` repository (files `app-fin/intergration.py`,
`app-fin/procurement_analysis_platform.py`, `app-fin/methodology-chosen.py`).

Strings are embedded as Lean `String`/`List Char`; the Python operations used
by the source (`in` on strings, `str.lower`, `str.strip`) are embedded below.
`str.lower` is modelled by `Char.toLower` (ASCII case folding; the CJK and
ASCII characters appearing in the keyword tables are unaffected by the wider
Unicode folding Python performs) and `str.strip` by trimming the leading and
trailing `Char.isWhitespace` runs.
-/

/-- Embedding of the Python substring test `n in h` on character lists:
true iff `n` occurs contiguously inside `h`. -/
def containsSubAux (n : List Char) : List Char → Bool
  | [] => n.isEmpty
  | c :: cs => n.isPrefixOf (c :: cs) || containsSubAux n cs

/-- Python `needle in haystack` for `String`. -/
def pyIn (needle haystack : String) : Bool :=
  containsSubAux needle.data haystack.data

/-- Python `str.lower` on the character list of a string. -/
def toLowerL (l : List Char) : List Char := l.map Char.toLower

/-- Python `str.strip`: drop the leading and trailing whitespace runs. -/
def stripL (l : List Char) : List Char :=
  ((l.dropWhile Char.isWhitespace).reverse.dropWhile Char.isWhitespace).reverse

/-- Python `any(word in text for word in words)`. -/
def anyIn (words : List String) (text : List Char) : Bool :=
  words.any fun w => containsSubAux w.data text

/-- A recommendation record: title plus rationale, as returned by
`get_procurement_advice` in `intergration.py` and `methodology-chosen.py`. -/
structure Advice where
  title : String
  reason : String
  deriving DecidableEq, Repr

namespace Intergration

/- Embedding of `app-fin/intergration.py`.  The `extract_keywords` function and
its two keyword dictionaries are byte-identical between `intergration.py`
(lines 101-141) and `procurement_analysis_platform.py` (lines 96-136); they are
embedded once here and used for both. -/

/-- The `industry_keywords` dict of `extract_keywords`, in insertion order. -/
def industry_keywords : List (String × List String) :=
  [("制造", ["制造", "生产", "manufacture", "production"]),
   ("零售", ["零售", "retail", "distribution", "销售"]),
   ("建筑", ["建筑", "construction", "building", "工程"]),
   ("医疗", ["医疗", "hospital", "medical"]),
   ("教育", ["教育", "education", "school"]),
   ("金融", ["金融", "finance", "bank"])]

/-- The `objective_keywords` dict of `extract_keywords`, in insertion order. -/
def objective_keywords : List (String × List String) :=
  [("分类优化", ["分类", "组合", "portfolio", "categorize"]),
   ("供应商协作", ["合作", "联合", "协作", "collaboration", "供应商"]),
   ("物料计划", ["物料", "计划", "mrp", "生产排期"]),
   ("维护维修", ["维护", "维修", "mro", "间接物料"]),
   ("成本控制", ["成本", "节约", "降低", "control", "reduce"])]

/-- The `for ... break` scan over an insertion-ordered dict: the label of the
first category with a matching trigger, `""` if none matches. -/
def firstMatch : List (String × List String) → List Char → String
  | [], _ => ""
  | (label, kws) :: rest, t => if anyIn kws t then label else firstMatch rest t

/-- `extract_keywords` with the two dictionaries as explicit parameters
(the source holds them in local variables). -/
def extract_keywords_with (ind obj : List (String × List String))
    (text : String) : String × String :=
  if text = "" then ("", "")
  else
    let text_lower := toLowerL text.data
    (firstMatch ind text_lower, firstMatch obj text_lower)

/-- `extract_keywords(text)` of `intergration.py` lines 101-141 (and the
identical copy in `procurement_analysis_platform.py` lines 96-136). -/
def extract_keywords (text : String) : String × String :=
  extract_keywords_with industry_keywords objective_keywords text

/-- `is_manufacturing` of `get_procurement_advice`. -/
def is_manufacturing (industry_lower : List Char) : Bool :=
  anyIn ["制造", "生产", "manufacture"] industry_lower

/-- `is_retail` (computed but unused by the source's decision chain). -/
def is_retail (industry_lower : List Char) : Bool :=
  anyIn ["零售", "retail", "distribution"] industry_lower

/-- `is_construction` (computed but unused by the source's decision chain). -/
def is_construction (industry_lower : List Char) : Bool :=
  anyIn ["建筑", "construction", "building"] industry_lower

/-- `wants_portfolio` of `get_procurement_advice`. -/
def wants_portfolio (objective_lower : List Char) : Bool :=
  anyIn ["分类", "组合", "portfolio", "categorize"] objective_lower

/-- `wants_collaboration` of `get_procurement_advice`. -/
def wants_collaboration (objective_lower : List Char) : Bool :=
  anyIn ["合作", "联合", "协作", "collaboration"] objective_lower

/-- `wants_material_plan` of `get_procurement_advice`. -/
def wants_material_plan (objective_lower : List Char) : Bool :=
  anyIn ["物料计划", "mrp", "生产排期"] objective_lower

/-- `wants_maintenance` of `get_procurement_advice`. -/
def wants_maintenance (objective_lower : List Char) : Bool :=
  anyIn ["维护", "维修", "mro", "间接物料"] objective_lower

/-- `wants_cost_reduction` of `get_procurement_advice`. -/
def wants_cost_reduction (objective_lower : List Char) : Bool :=
  anyIn ["成本", "节约", "降低", "control", "reduce"] objective_lower

/-- The Kraljic record returned by the first branch. -/
def kraljic : Advice :=
  ⟨"卡拉杰克采购组合模型",
   "通过「战略型、杠杆型、瓶颈型、常规型」分类，优化采购资源与供应商关系，降本提效。"⟩

/-- The VMI record returned by the second branch. -/
def vmi : Advice :=
  ⟨"VMI联合价值创造模型",
   "供应商深度参与库存管理，减少积压/缺货，适合长期战略合作场景。"⟩

/-- The MRP record returned by the third branch. -/
def mrp : Advice :=
  ⟨"MRP物料需求计划方法论",
   "基于生产计划精准计算物料需求，减少库存浪费，适配制造型企业排产。"⟩

/-- The MRO record returned by the fourth branch. -/
def mro : Advice :=
  ⟨"MRO分类采购管理方法论",
   "聚焦非生产物料（维护/维修/运营），分类管控间接采购成本，保障产线稳定。"⟩

/-- The TCO record returned by the fifth branch. -/
def tco : Advice :=
  ⟨"TCO总成本优化方法论",
   "从采购、使用到处置的全生命周期成本分析，识别隐性节约空间，系统性降低总拥有成本。"⟩

/-- The fallback record returned by the final `else`. -/
def fallback : Advice :=
  ⟨"采购策略综合评估法",
   "建议先梳理采购物品属性、供应商关系、成本结构，再适配具体方法论。"⟩

/-- The six hand-authored records `get_procurement_advice` can return. -/
def catalog : List Advice := [kraljic, vmi, mrp, mro, tco, fallback]

/-- `get_procurement_advice(industry, objective)` of `intergration.py`
lines 145-211. -/
def get_procurement_advice (industry objective : String) : Advice :=
  let industry_lower := stripL (toLowerL industry.data)
  let objective_lower := stripL (toLowerL objective.data)
  if wants_portfolio objective_lower then kraljic
  else if wants_collaboration objective_lower then vmi
  else if wants_material_plan objective_lower && is_manufacturing industry_lower then mrp
  else if wants_maintenance objective_lower then mro
  else if wants_cost_reduction objective_lower then tco
  else fallback

end Intergration

/-- A recommendation record with a mermaid flow diagram, as returned by
`get_procurement_advice_with_flow` in `procurement_analysis_platform.py`. -/
structure FlowAdvice where
  title : String
  desc : String
  flow : String
  deriving DecidableEq, Repr

namespace Platform

/- Embedding of `get_procurement_advice_with_flow` of
`app-fin/procurement_analysis_platform.py` lines 140-264.  The mermaid flow
strings keep the source's line content; the decorative indentation of the
Python triple-quoted literals is not reproduced. -/

/-- `is_manufacturing` of `get_procurement_advice_with_flow`. -/
def is_manufacturing (industry_lower : List Char) : Bool :=
  anyIn ["制造", "生产", "manufacture"] industry_lower

/-- `wants_portfolio` of `get_procurement_advice_with_flow`; note the list has
no "categorize", unlike the `intergration.py` variant. -/
def wants_portfolio (objective_lower : List Char) : Bool :=
  anyIn ["分类", "组合", "portfolio"] objective_lower

/-- `wants_collaboration` of `get_procurement_advice_with_flow`. -/
def wants_collaboration (objective_lower : List Char) : Bool :=
  anyIn ["合作", "联合", "协作", "collaboration"] objective_lower

/-- `wants_material_plan` of `get_procurement_advice_with_flow`; broader than
the `intergration.py` list ("物料" and "计划" alone trigger it). -/
def wants_material_plan (objective_lower : List Char) : Bool :=
  anyIn ["物料", "计划", "mrp", "生产排期"] objective_lower

/-- `wants_maintenance` of `get_procurement_advice_with_flow`. -/
def wants_maintenance (objective_lower : List Char) : Bool :=
  anyIn ["维护", "维修", "mro", "间接物料"] objective_lower

/-- `wants_cost_reduction` of `get_procurement_advice_with_flow`. -/
def wants_cost_reduction (objective_lower : List Char) : Bool :=
  anyIn ["成本", "节约", "降低", "control", "reduce"] objective_lower

/-- The Kraljic record of branch 1. -/
def kraljic : FlowAdvice :=
  ⟨"卡拉杰克采购组合模型",
   "通过「战略型、杠杆型、瓶颈型、常规型」分类，优化采购资源与供应商关系，降本提效。",
   "```mermaid
graph TD
    A[确定采购物品清单] --> B[分析物品重要性<br/>(对业务影响)]
    A --> C[分析供应风险<br/>(稀缺性/替代难度)]
    B --> D\x7b重要性高?\x7d
    C --> E\x7b供应风险高?\x7d
    D -->|是| F[战略型物品<br/>(例：核心零部件)]
    D -->|否| G[杠杆型物品<br/>(例：标准化原材料)]
    E -->|是| H[瓶颈型物品<br/>(例：独家配件)]
    E -->|否| I[常规型物品<br/>(例：办公用品)]
    F --> J[建立长期战略合作]
    G --> K[集中采购+招标压价]
    H --> L[多源寻源+库存缓冲]
    I --> M[简化流程+自动化采购]
```"⟩

/-- The VMI record of branch 2. -/
def vmi : FlowAdvice :=
  ⟨"VMI联合价值创造模型",
   "供应商深度参与库存管理，减少积压/缺货，适合长期战略合作场景。",
   "```mermaid
graph TD
    A[供需双方签订VMI协议] --> B[共享销售/库存数据<br/>(实时同步)]
    B --> C[供应商预测需求<br/>(结合历史数据)]
    C --> D\x7b库存低于安全线?\x7d
    D -->|是| E[自动补货至目标库存]
    D -->|否| F[维持现有库存]
    E --> G[双方定期复盘<br/>(调整预测模型)]
    G --> B[循环优化]
```"⟩

/-- The MRP record of branch 3. -/
def mrp : FlowAdvice :=
  ⟨"MRP物料需求计划方法论",
   "基于生产计划精准计算物料需求，减少库存浪费，适配制造型企业排产。",
   "```mermaid
graph TD
    A[制定主生产计划<br/>(MPS)] --> B[分解物料清单<br/>(BOM层级展开)]
    B --> C[统计现有库存<br/>(含在途/在制)]
    C --> D[计算净需求<br/>(毛需求-库存-在途)]
    D --> E\x7b净需求>0?\x7d
    E -->|是| F[生成采购订单<br/>(按提前期)]
    E -->|否| G[无需采购]
    F --> H[跟踪订单交付<br/>(与生产计划匹配)]
    H --> I[生产执行与反馈]
```"⟩

/-- The MRO record of branch 4. -/
def mro : FlowAdvice :=
  ⟨"MRO分类采购管理方法论",
   "聚焦非生产物料（维护/维修/运营），分类管控间接采购成本，保障产线稳定。",
   "```mermaid
graph TD
    A[梳理MRO物料清单] --> B[分类：<br/>1. 高频低价值<br/>2. 低频高价值<br/>3. 应急必需]
    B --> C[高频低价值：<br/>长期协议+自动补货]
    B --> D[低频高价值：<br/>战略寻源+最小库存]
    B --> E[应急必需：<br/>多供应商+安全库存]
    C --> F[定期消耗分析<br/>(优化补货参数)]
    D --> G[供应商响应速度考核]
    E --> H[模拟应急场景<br/>(测试供应能力)]
```"⟩

/-- The TCO record of branch 5. -/
def tco : FlowAdvice :=
  ⟨"TCO总成本优化方法论",
   "从采购、使用到处置的全生命周期成本分析，识别隐性节约空间，系统性降低总拥有成本。",
   "```mermaid
graph TD
    A[确定分析对象<br/>(单一物品/品类)] --> B[计算采购成本<br/>(价格+运输+税费)]
    B --> C[计算使用成本<br/>(能耗+维护+人工)]
    C --> D[计算处置成本<br/>(报废+环保+替代)]
    D --> E[汇总TCO=B+C+D]
    E --> F[识别成本占比最高项<br/>(例如：维护成本过高)]
    F --> G[针对性优化<br/>(例：换高效型号)]
    G --> H[验证优化效果<br/>(TCO降低比例)]
```"⟩

/-- The fallback record of the final `else`. -/
def fallback : FlowAdvice :=
  ⟨"采购策略综合评估法",
   "建议先梳理采购物品属性、供应商关系、成本结构，再适配具体方法论。",
   "```mermaid
graph TD
    A[明确采购目标<br/>(降本/保供/创新)] --> B[分析物品特性<br/>(价值/风险/复杂度)]
    B --> C[评估现有供应商<br/>(能力/合作历史)]
    C --> D[梳理内外部约束<br/>(预算/时间/政策)]
    D --> E[匹配候选方法论<br/>(对比优缺点)]
    E --> F[小范围试点验证]
    F --> G[全面推广+持续迭代]
```"⟩

/-- The six records `get_procurement_advice_with_flow` can return. -/
def catalog : List FlowAdvice := [kraljic, vmi, mrp, mro, tco, fallback]

/-- `get_procurement_advice_with_flow(industry, objective)` of
`procurement_analysis_platform.py` lines 140-264. -/
def get_procurement_advice_with_flow (industry objective : String) : FlowAdvice :=
  let industry_lower := stripL (toLowerL industry.data)
  let objective_lower := stripL (toLowerL objective.data)
  if wants_portfolio objective_lower then kraljic
  else if wants_collaboration objective_lower then vmi
  else if wants_material_plan objective_lower && is_manufacturing industry_lower then mrp
  else if wants_maintenance objective_lower then mro
  else if wants_cost_reduction objective_lower then tco
  else fallback

end Platform

namespace MethodologyChosen

/- Embedding of `get_procurement_advice` of `app-fin/methodology-chosen.py`
lines 1-65 (the minimal rule set: no TCO rule, broader branch guards, inputs
lowercased but not stripped). -/

/-- `is_manufacturing` of the minimal variant (includes "production"). -/
def is_manufacturing (industry_lower : List Char) : Bool :=
  anyIn ["制造", "生产", "manufacture", "production"] industry_lower

/-- `is_retail` (computed but unused; the source repeats "零售"). -/
def is_retail (industry_lower : List Char) : Bool :=
  anyIn ["零售", "零售", "retail", "distribution"] industry_lower

/-- `is_construction` (computed but unused). -/
def is_construction (industry_lower : List Char) : Bool :=
  anyIn ["建筑", "construction", "building"] industry_lower

/-- `is_service` (computed but unused). -/
def is_service (industry_lower : List Char) : Bool :=
  anyIn ["服务", "service"] industry_lower

/-- `wants_portfolio` of the minimal variant. -/
def wants_portfolio (objective_lower : List Char) : Bool :=
  anyIn ["分类", "组合", "portfolio", "categorize"] objective_lower

/-- `wants_collaboration` of the minimal variant (includes "joint"). -/
def wants_collaboration (objective_lower : List Char) : Bool :=
  anyIn ["合作", "联合", "协作", "collaboration", "joint"] objective_lower

/-- `wants_inventory` of the minimal variant. -/
def wants_inventory (objective_lower : List Char) : Bool :=
  anyIn ["库存", "库存管理", "inventory", "stock"] objective_lower

/-- `wants_material` of the minimal variant. -/
def wants_material (objective_lower : List Char) : Bool :=
  anyIn ["物料", "材料", "material"] objective_lower

/-- `wants_maintenance` of the minimal variant. -/
def wants_maintenance (objective_lower : List Char) : Bool :=
  anyIn ["维护", "维修", "maintenance", "repair"] objective_lower

/-- The Kraljic record of branch 1. -/
def kraljic : Advice :=
  ⟨"卡拉杰克采购组合模型 (Kraljic Portfolio Matrix)",
   "卡拉杰克采购组合模型通过将采购物品按利润影响和供应风险两个维度进行分类，将采购项目分为战略型、杠杆型、瓶颈型和常规型四类，针对不同类型制定差异化采购策略。这一方法论特别适合帮助企业优化采购资源分配，建立高效的供应商关系管理体系，降低整体采购成本和风险。"⟩

/-- The VMI record of branch 2. -/
def vmi : Advice :=
  ⟨"VMI联合价值创造模型 (Vendor Managed Inventory)",
   "VMI联合价值创造模型通过供应商参与买方的库存管理决策，实现供需双方的信息共享与协同合作。该方法论能够减少库存积压和缺货风险，降低整体供应链成本，提高响应速度。尤其适合需要与核心供应商建立长期战略合作关系的企业，通过信息共享和协同计划创造双赢局面。"⟩

/-- The MRP record of branch 3. -/
def mrp : Advice :=
  ⟨"MRP物料需求计划方法论 (Material Requirements Planning)",
   "MRP物料需求计划方法论基于生产计划和物料清单，精确计算生产所需的原材料和零部件数量及时间。该方法通过计算机系统实现物料需求的精准预测和计划，确保生产所需物料按时按量供应，同时最小化库存成本。特别适合制造型企业的生产物料采购管理，提高生产效率和物料周转率。"⟩

/-- The MRO record of branch 4. -/
def mro : Advice :=
  ⟨"MRO分类采购管理方法论 (Maintenance, Repair, and Operations)",
   "MRO分类采购管理方法论专注于非生产性物料的采购与管理，通过对维护、维修和运营所需物品进行分类，制定针对性的采购策略和库存管理方案。该方法能够提高间接物料的采购效率，降低库存成本，确保企业运营的连续性，特别适合需要大量维护和运营物料的行业。"⟩

/-- The fallback record of the final `else` (its title differs from the other
variants: "采购方法论综合评估法"). -/
def fallback : Advice :=
  ⟨"采购方法论综合评估法",
   "基于您提供的信息，我们建议先对采购需求进行全面评估，包括：\n1. 分析采购物品的特性和重要性\n2. 评估与供应商的合作模式需求\n3. 明确库存管理目标\n根据评估结果，可选择卡拉杰克采购组合模型进行分类管理，VMI模型优化供应商协作，\nMRP方法进行生产物料计划，或MRO分类管理间接物料，也可组合使用多种方法。"⟩

/-- `get_procurement_advice(industry, objective)` of `methodology-chosen.py`
lines 1-65. -/
def get_procurement_advice (industry objective : String) : Advice :=
  let industry_lower := toLowerL industry.data
  let objective_lower := toLowerL objective.data
  if wants_portfolio objective_lower ||
      (wants_material objective_lower && wants_inventory objective_lower) then kraljic
  else if wants_collaboration objective_lower ||
      anyIn ["供应商管理", "联合库存", "vmi"] objective_lower then vmi
  else if wants_material objective_lower && wants_inventory objective_lower &&
      is_manufacturing industry_lower then mrp
  else if wants_maintenance objective_lower ||
      anyIn ["间接物料", "维护用品", "mro"] objective_lower then mro
  else fallback

end MethodologyChosen

namespace Intergration

/-- A worksheet as handed to `extract_text_from_excel` by the pandas parse:
sheet name, column headers and data rows.  A cell is `Option String`; `none`
models a NaN value, which `pd.notna` filters out. -/
structure Sheet where
  name : String
  columns : List (Option String)
  rows : List (List (Option String))

/-- The per-sheet text block built inside `extract_text_from_excel`
(lines 45-65 of `intergration.py`): a header naming the sheet, the non-null
column names comma-joined, and the first five non-empty rows. -/
def sheetText (s : Sheet) : String :=
  let sheet_text := "工作表: " ++ s.name ++ "\n"
  let columns := s.columns.filterMap id
  let sheet_text :=
    if columns ≠ [] then sheet_text ++ "列名: " ++ String.intercalate ", " columns ++ "\n"
    else sheet_text
  let sample_data := (s.rows.take 5).filterMap fun row =>
    let row_data := row.filterMap id
    if row_data ≠ [] then some (String.intercalate ", " row_data) else none
  if sample_data ≠ [] then
    sheet_text ++ "样本数据: " ++ String.intercalate "; " sample_data ++ "\n"
  else sheet_text

/-- `extract_text_from_excel` of `intergration.py` lines 37-70.  The `Except`
argument is the outcome of the pandas parse of the uploaded file; `.error`
models a raised exception, which the source's `try/except` catches, logs and
turns into the empty string. -/
def extract_text_from_excel (parsed : Except String (List Sheet)) : String :=
  match parsed with
  | .error _ => ""
  | .ok sheets => String.intercalate "\n" (sheets.map sheetText)

/-- Lines 247-249 of `analyze_file`: the classifier runs only when the
extracted text is non-empty and the file type is a supported one. -/
def classify_extracted (file_type extracted_text : String) : String × String :=
  if extracted_text ≠ "" ∧ file_type ≠ "其他文件" then extract_keywords extracted_text
  else ("", "")

/-- The fixed pool of closing sentences `analyze_file` draws from with
`random.choice` (lines 276-281). -/
def conclusions : List String :=
  ["文件数据完整度高，可用于采购策略建模。",
   "数据存在零散性，建议先做标准化清洗。",
   "内容与采购场景强相关，适合辅助方法论落地。",
   "数据呈现出明确的采购模式，可直接应用推荐的方法论。"]

/-- The advice block `analyze_file` appends to the report (line 290):
a fixed function of the industry/objective pair alone. -/
def advice_section (industry objective : String) : String :=
  "\n\n## 推荐的采购方法论\n### " ++ (get_procurement_advice industry objective).title ++
    "\n" ++ (get_procurement_advice industry objective).reason

/-- Model of the tail of `analyze_file` (lines 247-292): keyword extraction,
report assembly and advice recommendation.  The pseudo-random report
decorations (`random.randint(3,10)`, `random.randint(1,3)`, `random.choice`)
are passed in as the explicit parameters `key_points`, `trends` and
`choice_idx`, and the non-core file metadata header as `basic_info`; the
returned triple is (full report, new industry box, new objective box). -/
def analyze_tail (key_points trends choice_idx : Nat) (basic_info : String)
    (file_type extracted_text industry_input objective_input : String) :
    String × String × String :=
  let ek := classify_extracted file_type extracted_text
  let analysis_result := basic_info ++
    "\n## 内容提取\n- 识别到的行业: " ++ (if ek.1 ≠ "" then ek.1 else "未明确识别") ++
    "\n- 识别到的采购目标: " ++ (if ek.2 ≠ "" then ek.2 else "未明确识别") ++
    "\n## 内容分析\n- 识别到 " ++ toString key_points ++ " 个关键数据点\n- 发现 " ++
    toString trends ++ " 条潜在趋势/异常\n- 建议结合「采购方法论」进一步优化策略\n## 结论\n" ++
    conclusions.getD (choice_idx % 4) ""
  let new_industry := if ek.1 ≠ "" then ek.1 else industry_input
  let new_objective := if ek.2 ≠ "" then ek.2 else objective_input
  (analysis_result ++ advice_section new_industry new_objective, new_industry, new_objective)

end Intergration
theorem containsSub_iff (n : List Char) :
    ∀ h : List Char, containsSubAux n h = true ↔ n <:+: h := by
  intro h
  induction h with
  | nil =>
    simp [containsSubAux, List.isEmpty_iff]
  | cons c cs ih =>
    simp [containsSubAux, ih, List.infix_cons_iff,  List.isPrefixOf_iff_prefix]

theorem infix_dropWhile_of_not (p : Char → Bool) (n : List Char)
    (hn : ∀ c ∈ n, p c = false) :
    ∀ l : List Char, n <:+: l → n <:+: l.dropWhile p := by
  intro l
  induction l with
  | nil => simp
  | cons a l ih =>
    intro h
    by_cases hpa : p a = true
    · rw [List.dropWhile_cons_of_pos hpa]
      apply ih
      rcases List.infix_cons_iff.mp h with hpre | hinf
      · cases n with
        | nil => exact ⟨[], l, rfl⟩
        | cons b n' =>
          obtain ⟨t, ht⟩ := hpre
          rw [List.cons_append] at ht
          have hb : b = a := (List.cons.injEq b (n' ++ t) a l).mp ht |>.1
          have hfalse := hn b (List.mem_cons_self b n')
          rw [hb, hpa] at hfalse
          exact absurd hfalse (by simp)
      · exact hinf
    · rw [List.dropWhile_cons_of_neg hpa]
      exact h

theorem infix_stripL (n l : List Char)
    (hn : ∀ c ∈ n, Char.isWhitespace c = false) (h : n <:+: l) :
    n <:+: stripL l := by
  have h1 : n <:+: l.dropWhile Char.isWhitespace :=
    infix_dropWhile_of_not _ _ hn _ h
  have h2 : n.reverse <:+: (l.dropWhile Char.isWhitespace).reverse :=
    ( List.reverse_infix).mpr h1
  have hn' : ∀ c ∈ n.reverse, Char.isWhitespace c = false := by
    intro c hc
    exact hn c (List.mem_reverse.mp hc)
  have h3 := infix_dropWhile_of_not _ _ hn' _ h2
  have h4 := ( List.reverse_infix).mpr h3
  simpa [stripL] using h4

theorem stripL_sub_self (l : List Char) : stripL l <:+: l := by
  have h1 : l.dropWhile Char.isWhitespace <:+ l := List.dropWhile_suffix _
  have h2 : (l.dropWhile Char.isWhitespace).reverse.dropWhile Char.isWhitespace <:+
      (l.dropWhile Char.isWhitespace).reverse := List.dropWhile_suffix _
  have h3 : stripL l <+: l.dropWhile Char.isWhitespace := by
    rw [stripL]
    refine List.reverse_suffix.mp ?_
    simpa using h2
  exact List.IsInfix.trans (List.IsPrefix.isInfix h3) (List.IsSuffix.isInfix h1)

theorem anyIn_iff (kws : List String) (t : List Char) :
    anyIn kws t = true ↔ ∃ k ∈ kws, k.data <:+: t := by
  simp [anyIn, containsSub_iff]

/-- A keyword match survives `strip` as long as no keyword contains whitespace. -/
theorem anyIn_stripL_of_anyIn (kws : List String) (t : List Char)
    (hk : ∀ k ∈ kws, ∀ c ∈ String.data k, Char.isWhitespace c = false)
    (h : anyIn kws t = true) : anyIn kws (stripL t) = true := by
  rw [anyIn_iff] at h ⊢
  obtain ⟨k, hkmem, hinf⟩ := h
  exact ⟨k, hkmem, infix_stripL _ _ (hk k hkmem) hinf⟩

/-- A keyword match on the stripped text was already a match on the text. -/
theorem anyIn_of_anyIn_stripL (kws : List String) (t : List Char)
    (h : anyIn kws (stripL t) = true) : anyIn kws t = true := by
  rw [anyIn_iff] at h ⊢
  obtain ⟨k, hkmem, hinf⟩ := h
  exact ⟨k, hkmem, hinf.trans (stripL_sub_self t)⟩

theorem anyIn_stripL_eq_false (kws : List String) (t : List Char)
    (h : anyIn kws t = false) : anyIn kws (stripL t) = false := by
  cases hc : anyIn kws (stripL t) with
  | false => rfl
  | true => exact absurd (anyIn_of_anyIn_stripL kws t hc) (by simp [h])


/-- The dict scan returns the label at index `i` when category `i` matches
and no earlier category does. -/
theorem firstMatch_getD (d : List (String × List String)) (t : List Char) :
    ∀ i : Nat, i < d.length →
      anyIn (d.getD i ("", [])).2 t = true →
      (∀ j : Nat, j < i → anyIn (d.getD j ("", [])).2 t = false) →
      Intergration.firstMatch d t = (d.getD i ("", [])).1 := by
  induction d with
  | nil =>
    intro i hi _ _
    exact absurd hi (by simp)
  | cons hd tl ih =>
    intro i hi hm he
    obtain ⟨label, kws⟩ := hd
    cases i with
    | zero =>
      rw [List.getD_cons_zero] at hm ⊢
      simp [Intergration.firstMatch, hm]
    | succ n =>
      have h0 := he 0 (Nat.zero_lt_succ n)
      rw [List.getD_cons_zero] at h0
      rw [List.getD_cons_succ] at hm ⊢
      simp only [Intergration.firstMatch]
      simp only [h0, Bool.false_eq_true, if_false]
      exact ih n (Nat.lt_of_succ_lt_succ hi) hm fun j hj => by
        have hj' := he (j + 1) (Nat.succ_lt_succ hj)
        rwa [List.getD_cons_succ] at hj'

/-- Claim C3: the classifier is first-match-wins over the declared label
order: for every text whose lowercased form contains a trigger of category
`i` of a dictionary and no trigger of any earlier category, the respective
component of `extract_keywords` is that category's label; the result is
always a single (possibly empty) label per label space. -/
theorem extract_keywords_first_match_wins (text : String) :
    (∀ i : Nat, i < Intergration.industry_keywords.length →
      anyIn ((Intergration.industry_keywords.getD i ("", [])).2) (toLowerL text.data) = true →
      (∀ j : Nat, j < i →
        anyIn ((Intergration.industry_keywords.getD j ("", [])).2) (toLowerL text.data) = false) →
      (Intergration.extract_keywords text).1 = (Intergration.industry_keywords.getD i ("", [])).1)
    ∧
    (∀ i : Nat, i < Intergration.objective_keywords.length →
      anyIn ((Intergration.objective_keywords.getD i ("", [])).2) (toLowerL text.data) = true →
      (∀ j : Nat, j < i →
        anyIn ((Intergration.objective_keywords.getD j ("", [])).2) (toLowerL text.data) = false) →
      (Intergration.extract_keywords text).2 = (Intergration.objective_keywords.getD i ("", [])).1) := by
  by_cases htext : text = ""
  · subst htext
    have hlow : toLowerL (String.data "") = ([] : List Char) := rfl
    constructor
    · intro i hi hm _
      rw [hlow] at hm
      have hzero : ∀ i : Nat, i < Intergration.industry_keywords.length →
          anyIn ((Intergration.industry_keywords.getD i ("", [])).2) ([] : List Char) = false := by
        decide
      rw [hzero i hi] at hm
      exact absurd hm (by simp)
    · intro i hi hm _
      rw [hlow] at hm
      have hzero : ∀ i : Nat, i < Intergration.objective_keywords.length →
          anyIn ((Intergration.objective_keywords.getD i ("", [])).2) ([] : List Char) = false := by
        decide
      rw [hzero i hi] at hm
      exact absurd hm (by simp)
  · constructor
    · intro i hi hm he
      have : Intergration.extract_keywords text =
          (Intergration.firstMatch Intergration.industry_keywords (toLowerL text.data),
           Intergration.firstMatch Intergration.objective_keywords (toLowerL text.data)) := by
        simp [Intergration.extract_keywords, Intergration.extract_keywords_with, htext]
      rw [this]
      exact firstMatch_getD _ _ i hi hm he
    · intro i hi hm he
      have : Intergration.extract_keywords text =
          (Intergration.firstMatch Intergration.industry_keywords (toLowerL text.data),
           Intergration.firstMatch Intergration.objective_keywords (toLowerL text.data)) := by
        simp [Intergration.extract_keywords, Intergration.extract_keywords_with, htext]
      rw [this]
      exact firstMatch_getD _ _ i hi hm he

/-- Witness for C3: on "制造维护", industry category 0 ("制造") and objective
category 3 ("维护维修") are the first matches, and `extract_keywords`
returns exactly those labels. -/
theorem extract_keywords_first_match_wins_witness :
    (Intergration.extract_keywords "制造维护").1 = "制造" ∧
    (Intergration.extract_keywords "制造维护").2 = "维护维修" := by
  constructor
  · exact (extract_keywords_first_match_wins "制造维护").1 0 (by decide) (by decide)
      (fun j hj => absurd hj (Nat.not_lt_zero j))
  · exact (extract_keywords_first_match_wins "制造维护").2 3 (by decide) (by decide) (by decide)

/-- Claim C7: `extract_keywords` applied to the empty string returns
`("", "")` through the early guard, for any pair of keyword dictionaries —
in particular without consulting the two declared ones. -/
theorem classify_empty_immediate (ind obj : List (String × List String)) :
    Intergration.extract_keywords_with ind obj "" = ("", "") ∧
    Intergration.extract_keywords "" = ("", "") := by
  constructor
  · simp [Intergration.extract_keywords_with]
  · rfl

/-- Claim C4: the end-to-end example: classifying the sample sentence yields
("制造", "物料计划"), and recommending on that pair yields the MRP record in
both app variants. -/
theorem classify_recommend_example :
    Intergration.extract_keywords "我们是一家制造企业，需要做物料计划和生产排期" = ("制造", "物料计划") ∧
    (Intergration.get_procurement_advice "制造" "物料计划").title = "MRP物料需求计划方法论" ∧
    (Platform.get_procurement_advice_with_flow "制造" "物料计划").title = "MRP物料需求计划方法论" := by
  decide

/-- Claim C5: `get_procurement_advice` is total — every (industry, objective)
pair yields one of the six fixed records — and the double-empty input yields
the fallback record titled "采购策略综合评估法". -/
theorem recommend_total_and_fallback :
    (∀ industry objective : String,
      Intergration.get_procurement_advice industry objective ∈ Intergration.catalog) ∧
    Intergration.get_procurement_advice "" "" = Intergration.fallback ∧
    Intergration.fallback.title = "采购策略综合评估法" := by
  refine ⟨?_, by decide, by decide⟩
  intro industry objective
  simp only [Intergration.get_procurement_advice, Intergration.catalog]
  split
  · simp
  · split
    · simp
    · split
      · simp
      · split
        · simp
        · split
          · simp
          · simp

/-- Counterexample to C1 as stated: "categorize合作" contains a portfolio
trigger from the claim's list ("categorize", which is in `intergration.py`'s
`wants_portfolio` list) and a collaboration trigger ("合作"), yet the cited
flow-variant recommender returns the VMI record, because its own
`wants_portfolio` list omits "categorize". -/
theorem portfolio_priority_counterexample :
    Intergration.wants_portfolio (toLowerL ("categorize合作").data) = true ∧
    Intergration.wants_collaboration (toLowerL ("categorize合作").data) = true ∧
    (Platform.get_procurement_advice_with_flow "" "categorize合作").title = "VMI联合价值创造模型" ∧
    ¬ (Platform.get_procurement_advice_with_flow "" "categorize合作").title = "卡拉杰克采购组合模型" := by
  decide

/-- Claim C1 (amended): portfolio beats collaboration in both recommenders,
with each variant's own portfolio trigger list: `intergration.py` triggers on
分类/组合/portfolio/categorize, the flow variant only on 分类/组合/portfolio.
Whenever the lowercased objective contains such a portfolio trigger and a
collaboration trigger, the Kraljic record is returned and never the VMI one. -/
theorem portfolio_beats_collaboration (industry objective : String)
    (hcollab : Intergration.wants_collaboration (toLowerL objective.data) = true) :
    (Intergration.wants_portfolio (toLowerL objective.data) = true →
      Intergration.get_procurement_advice industry objective = Intergration.kraljic ∧
      Intergration.get_procurement_advice industry objective ≠ Intergration.vmi)
    ∧
    (Platform.wants_portfolio (toLowerL objective.data) = true →
      Platform.get_procurement_advice_with_flow industry objective = Platform.kraljic ∧
      Platform.get_procurement_advice_with_flow industry objective ≠ Platform.vmi) := by
  constructor
  · intro hp
    have hp' : Intergration.wants_portfolio (stripL (toLowerL objective.data)) = true :=
      anyIn_stripL_of_anyIn _ _ (by decide) hp
    have heq : Intergration.get_procurement_advice industry objective = Intergration.kraljic := by
      simp [Intergration.get_procurement_advice, hp']
    refine ⟨heq, ?_⟩
    rw [heq]
    decide
  · intro hp
    have hp' : Platform.wants_portfolio (stripL (toLowerL objective.data)) = true :=
      anyIn_stripL_of_anyIn _ _ (by decide) hp
    have heq : Platform.get_procurement_advice_with_flow industry objective = Platform.kraljic := by
      simp [Platform.get_procurement_advice_with_flow, hp']
    refine ⟨heq, ?_⟩
    rw [heq]
    decide

/-- Witness for the amended C1 at a concrete input satisfying both trigger
hypotheses in both variants. -/
theorem portfolio_beats_collaboration_witness :
    Intergration.get_procurement_advice "" "组合合作" = Intergration.kraljic ∧
    Platform.get_procurement_advice_with_flow "" "组合合作" = Platform.kraljic := by
  have h := portfolio_beats_collaboration "" "组合合作" (by decide)
  exact ⟨(h.1 (by decide)).1, (h.2 (by decide)).1⟩

/-- Claim C2: the MRP rule is manufacturing-gated.  With an empty industry
string, an objective whose lowercased form contains a material-planning
trigger but no portfolio or collaboration trigger never selects the MRP
record: the call falls through to the maintenance rule, the cost rule or the
fallback, in both app variants. -/
theorem mrp_requires_manufacturing (industry objective : String)
    (hind : industry = "") :
    (Intergration.wants_material_plan (toLowerL objective.data) = true →
      Intergration.wants_portfolio (toLowerL objective.data) = false →
      Intergration.wants_collaboration (toLowerL objective.data) = false →
      Intergration.get_procurement_advice industry objective ≠ Intergration.mrp ∧
      Intergration.get_procurement_advice industry objective ∈
        [Intergration.mro, Intergration.tco, Intergration.fallback])
    ∧
    (Platform.wants_material_plan (toLowerL objective.data) = true →
      Platform.wants_portfolio (toLowerL objective.data) = false →
      Platform.wants_collaboration (toLowerL objective.data) = false →
      Platform.get_procurement_advice_with_flow industry objective ≠ Platform.mrp ∧
      Platform.get_procurement_advice_with_flow industry objective ∈
        [Platform.mro, Platform.tco, Platform.fallback]) := by
  subst hind
  constructor
  · intro _ hp hc
    have hp' : Intergration.wants_portfolio (stripL (toLowerL objective.data)) = false :=
      anyIn_stripL_eq_false _ _ hp
    have hc' : Intergration.wants_collaboration (stripL (toLowerL objective.data)) = false :=
      anyIn_stripL_eq_false _ _ hc
    have hman : Intergration.is_manufacturing (stripL (toLowerL (String.data ""))) = false := by
      decide
    simp only [Intergration.get_procurement_advice, hp', hc', hman, Bool.and_false,
      Bool.false_eq_true, if_false]
    refine ⟨?_, ?_⟩
    · split
      · decide
      · split
        · decide
        · decide
    · split
      · simp
      · split
        · simp
        · simp
  · intro _ hp hc
    have hp' : Platform.wants_portfolio (stripL (toLowerL objective.data)) = false :=
      anyIn_stripL_eq_false _ _ hp
    have hc' : Platform.wants_collaboration (stripL (toLowerL objective.data)) = false :=
      anyIn_stripL_eq_false _ _ hc
    have hman : Platform.is_manufacturing (stripL (toLowerL (String.data ""))) = false := by
      decide
    simp only [Platform.get_procurement_advice_with_flow, hp', hc', hman, Bool.and_false,
      Bool.false_eq_true, if_false]
    refine ⟨?_, ?_⟩
    · split
      · decide
      · split
        · decide
        · decide
    · split
      · simp
      · split
        · simp
        · simp

/-- Witness for C2: the objective "mrp" alone with an empty industry falls
through to the fallback in both variants (in particular not to MRP). -/
theorem mrp_requires_manufacturing_witness :
    Intergration.get_procurement_advice "" "mrp" ∈
      [Intergration.mro, Intergration.tco, Intergration.fallback] ∧
    Platform.get_procurement_advice_with_flow "" "mrp" ∈
      [Platform.mro, Platform.tco, Platform.fallback] := by
  have h := mrp_requires_manufacturing "" "mrp" rfl
  exact ⟨(h.1 (by decide) (by decide) (by decide)).2,
         (h.2 (by decide) (by decide) (by decide)).2⟩

/-- Claim C6: when the lowercased objective contains a cost-reduction trigger
and none of the earlier rules of the respective decision table matches, the
two extended recommenders return the TCO record, while the minimal rule set
of `methodology-chosen.py`, which has no TCO rule, falls through to its
fallback record on such inputs. -/
theorem tco_rule_extended_vs_minimal (industry objective : String)
    (hcost : Intergration.wants_cost_reduction (toLowerL objective.data) = true) :
    ((Intergration.wants_portfolio (toLowerL objective.data) = false ∧
      Intergration.wants_collaboration (toLowerL objective.data) = false ∧
      (Intergration.wants_material_plan (toLowerL objective.data) &&
        Intergration.is_manufacturing (toLowerL industry.data)) = false ∧
      Intergration.wants_maintenance (toLowerL objective.data) = false) →
      Intergration.get_procurement_advice industry objective = Intergration.tco)
    ∧
    ((Platform.wants_portfolio (toLowerL objective.data) = false ∧
      Platform.wants_collaboration (toLowerL objective.data) = false ∧
      (Platform.wants_material_plan (toLowerL objective.data) &&
        Platform.is_manufacturing (toLowerL industry.data)) = false ∧
      Platform.wants_maintenance (toLowerL objective.data) = false) →
      Platform.get_procurement_advice_with_flow industry objective = Platform.tco)
    ∧
    (((MethodologyChosen.wants_portfolio (toLowerL objective.data) ||
        (MethodologyChosen.wants_material (toLowerL objective.data) &&
         MethodologyChosen.wants_inventory (toLowerL objective.data))) = false ∧
      (MethodologyChosen.wants_collaboration (toLowerL objective.data) ||
        anyIn ["供应商管理", "联合库存", "vmi"] (toLowerL objective.data)) = false ∧
      (MethodologyChosen.wants_material (toLowerL objective.data) &&
        MethodologyChosen.wants_inventory (toLowerL objective.data) &&
        MethodologyChosen.is_manufacturing (toLowerL industry.data)) = false ∧
      (MethodologyChosen.wants_maintenance (toLowerL objective.data) ||
        anyIn ["间接物料", "维护用品", "mro"] (toLowerL objective.data)) = false) →
      MethodologyChosen.get_procurement_advice industry objective =
        MethodologyChosen.fallback) := by
  have hcost' : Intergration.wants_cost_reduction (stripL (toLowerL objective.data)) = true :=
    anyIn_stripL_of_anyIn _ _ (by decide) hcost
  refine ⟨?_, ?_, ?_⟩
  · rintro ⟨h1, h2, h3, h4⟩
    have h1' : Intergration.wants_portfolio (stripL (toLowerL objective.data)) = false :=
      anyIn_stripL_eq_false _ _ h1
    have h2' : Intergration.wants_collaboration (stripL (toLowerL objective.data)) = false :=
      anyIn_stripL_eq_false _ _ h2
    have h4' : Intergration.wants_maintenance (stripL (toLowerL objective.data)) = false :=
      anyIn_stripL_eq_false _ _ h4
    have h3' : (Intergration.wants_material_plan (stripL (toLowerL objective.data)) &&
        Intergration.is_manufacturing (stripL (toLowerL industry.data))) = false := by
      cases hmp : Intergration.wants_material_plan (toLowerL objective.data) with
      | false =>
        have hs : Intergration.wants_material_plan (stripL (toLowerL objective.data)) = false :=
          anyIn_stripL_eq_false _ _ hmp
        simp [hs]
      | true =>
        rw [hmp] at h3
        simp only [Bool.true_and] at h3
        have hs : Intergration.is_manufacturing (stripL (toLowerL industry.data)) = false :=
          anyIn_stripL_eq_false _ _ h3
        simp [hs]
    simp [Intergration.get_procurement_advice, h1', h2', h3', h4', hcost']
  · rintro ⟨h1, h2, h3, h4⟩
    have h1' : Platform.wants_portfolio (stripL (toLowerL objective.data)) = false :=
      anyIn_stripL_eq_false _ _ h1
    have h2' : Platform.wants_collaboration (stripL (toLowerL objective.data)) = false :=
      anyIn_stripL_eq_false _ _ h2
    have h4' : Platform.wants_maintenance (stripL (toLowerL objective.data)) = false :=
      anyIn_stripL_eq_false _ _ h4
    have h3' : (Platform.wants_material_plan (stripL (toLowerL objective.data)) &&
        Platform.is_manufacturing (stripL (toLowerL industry.data))) = false := by
      cases hmp : Platform.wants_material_plan (toLowerL objective.data) with
      | false =>
        have hs : Platform.wants_material_plan (stripL (toLowerL objective.data)) = false :=
          anyIn_stripL_eq_false _ _ hmp
        simp [hs]
      | true =>
        rw [hmp] at h3
        simp only [Bool.true_and] at h3
        have hs : Platform.is_manufacturing (stripL (toLowerL industry.data)) = false :=
          anyIn_stripL_eq_false _ _ h3
        simp [hs]
    have hcostP : Platform.wants_cost_reduction (stripL (toLowerL objective.data)) = true :=
      hcost'
    simp [Platform.get_procurement_advice_with_flow, h1', h2', h3', h4', hcostP]
  · rintro ⟨g1, g2, g3, g4⟩
    simp [MethodologyChosen.get_procurement_advice, g1, g2, g3, g4]

/-- Witness for C6: the objective "reduce" with an empty industry satisfies
every hypothesis; the extended variants return TCO, the minimal one the
fallback. -/
theorem tco_rule_witness :
    Intergration.get_procurement_advice "" "reduce" = Intergration.tco ∧
    Platform.get_procurement_advice_with_flow "" "reduce" = Platform.tco ∧
    MethodologyChosen.get_procurement_advice "" "reduce" = MethodologyChosen.fallback := by
  have h := tco_rule_extended_vs_minimal "" "reduce" (by decide)
  exact ⟨h.1 (by decide), h.2.1 (by decide), h.2.2 (by decide)⟩

/-- Claim C8: the recommenders are deterministic: identical inputs give
byte-identical records in all three variants, and in the modelled
`analyze_file` tail the report decorations drawn from the random generator
never influence the returned industry/objective labels nor the advice block
appended to the report. -/
theorem recommend_deterministic (i1 o1 i2 o2 : String)
    (hi : i1 = i2) (ho : o1 = o2) :
    Intergration.get_procurement_advice i1 o1 = Intergration.get_procurement_advice i2 o2 ∧
    Platform.get_procurement_advice_with_flow i1 o1 =
      Platform.get_procurement_advice_with_flow i2 o2 ∧
    MethodologyChosen.get_procurement_advice i1 o1 =
      MethodologyChosen.get_procurement_advice i2 o2 ∧
    (∀ kp1 tr1 c1 kp2 tr2 c2 : Nat, ∀ basic ftype extracted : String,
      ((Intergration.analyze_tail kp1 tr1 c1 basic ftype extracted i1 o1).2 =
        (Intergration.analyze_tail kp2 tr2 c2 basic ftype extracted i1 o1).2) ∧
      ∃ p1 p2 : String,
        (Intergration.analyze_tail kp1 tr1 c1 basic ftype extracted i1 o1).1 =
          p1 ++ Intergration.advice_section
            (Intergration.analyze_tail kp1 tr1 c1 basic ftype extracted i1 o1).2.1
            (Intergration.analyze_tail kp1 tr1 c1 basic ftype extracted i1 o1).2.2 ∧
        (Intergration.analyze_tail kp2 tr2 c2 basic ftype extracted i1 o1).1 =
          p2 ++ Intergration.advice_section
            (Intergration.analyze_tail kp1 tr1 c1 basic ftype extracted i1 o1).2.1
            (Intergration.analyze_tail kp1 tr1 c1 basic ftype extracted i1 o1).2.2) := by
  subst hi
  subst ho
  refine ⟨rfl, rfl, rfl, ?_⟩
  intro kp1 tr1 c1 kp2 tr2 c2 basic ftype extracted
  exact ⟨rfl, _, _, rfl, rfl⟩

/-- Witness for C8 at a concrete input pair. -/
theorem recommend_deterministic_witness :
    Intergration.get_procurement_advice "制造" "降低成本" =
      Intergration.get_procurement_advice "制造" "降低成本" :=
  (recommend_deterministic "制造" "降低成本" "制造" "降低成本" rfl rfl).1

/-- Claim C9: a parse failure makes `extract_text_from_excel` return the
empty string instead of propagating the exception, and the `analyze_file`
guard skips classification on empty text, leaving both labels empty. -/
theorem extraction_failure_degrades (e : String) (file_type : String) :
    Intergration.extract_text_from_excel (Except.error e) = "" ∧
    Intergration.classify_extracted file_type "" = ("", "") ∧
    Intergration.classify_extracted file_type
      (Intergration.extract_text_from_excel (Except.error e)) = ("", "") := by
  refine ⟨rfl, ?_, ?_⟩
  · simp [Intergration.classify_extracted]
  · simp [Intergration.classify_extracted, Intergration.extract_text_from_excel]

/-- Claim C10: in the minimal rule set of `methodology-chosen.py` the MRP
branch is unreachable — its guard implies the first rule's second disjunct —
so no input ever yields a record whose title contains the MRP title. -/
theorem minimal_mrp_unreachable (industry objective : String) :
    pyIn "MRP物料需求计划方法论"
      (MethodologyChosen.get_procurement_advice industry objective).title = false ∧
    MethodologyChosen.get_procurement_advice industry objective ≠ MethodologyChosen.mrp := by
  have hmem : MethodologyChosen.get_procurement_advice industry objective ∈
      [MethodologyChosen.kraljic, MethodologyChosen.vmi, MethodologyChosen.mro,
       MethodologyChosen.fallback] := by
    simp only [MethodologyChosen.get_procurement_advice]
    split
    · simp
    · split
      · simp
      · split
        · rename_i hg1 hg2 hg3
          exfalso
          simp only [Bool.or_eq_true, Bool.and_eq_true, not_or] at hg1 hg3
          exact hg1.2 hg3.1
        · split
          · simp
          · simp
  have hall : ∀ r ∈ [MethodologyChosen.kraljic, MethodologyChosen.vmi, MethodologyChosen.mro,
      MethodologyChosen.fallback],
      pyIn "MRP物料需求计划方法论" r.title = false ∧ r ≠ MethodologyChosen.mrp := by
    decide
  exact hall _ hmem
